import Mathlib

/-!
Verification of the QOSST control protocol core (`qosst_core/control_protocol`
and `qosst_core/authentication/base.py`), as a shallow embedding.

Bytes are modelled as `List Nat`; the JSON documents exchanged by the protocol
are modelled by `JValue`/`JObject`, restricted to the shapes the protocol
emits (string-keyed objects whose values are integers or strings), together
with the canonical serialization `json.dumps` produces for them
(separators `", "` and `": "`, no escape sequences).  The network is modelled
as the list of byte chunks successive `socket.recv` calls return; an empty
chunk models a zero-byte read (peer disconnection, or the `ConnectionError`
that the code maps to the same thing).  SHA-256 and the authenticator are
external collaborators and are passed in as function parameters.
-/

namespace QOSST

/-- Protocol codes of `qosst_core/control_protocol/codes.py` (`QOSSTCodes`). -/
inductive QOSSTCodes where
  | UNKOWN_COMMAND
  | UNEXPECTED_COMMAND
  | INVALID_CONTENT
  | INVALID_RESPONSE
  | INVALID_RESPONSE_ACK
  | ABORT
  | ABORT_ACK
  | AUTHENTICATION_INVALID
  | CHANGE_PARAMETER_REQUEST
  | PARAMETER_CHANGED
  | PARAMETER_UNKOWN
  | PARAMETER_INVALID_VALUE
  | PARAMETER_UNCHANGED
  | REQUEST_POLARISATION_RECOVERY
  | POLARISATION_RECOVERY_ACK
  | END_POLARISATION_RECOVERY
  | POLARISATION_RECOVERY_ENDED
  | IDENTIFICATION_REQUEST
  | IDENTIFICATION_RESPONSE
  | INVALID_QOSST_VERSION
  | INITIALIZATION_REQUEST
  | INITIALIZATION_ACCEPTED
  | INITIALIZATION_DENIED
  | INITIALIZATION_PROPOSAL
  | INITIALIZATION_REQUEST_CONFIG
  | INITIALIZATION_CONFIG
  | QIE_REQUEST
  | QIE_READY
  | QIE_TRIGGER
  | QIE_EMISSION_STARTED
  | QIE_ACQUISITION_ENDED
  | QIE_ENDED
  | PE_SYMBOLS_REQUEST
  | PE_SYMBOLS_RESPONSE
  | PE_SYMBOLS_ERROR
  | PE_NPHOTON_REQUEST
  | PE_NPHOTON_RESPONSE
  | PE_FINISHED
  | PE_APPROVED
  | PE_DENIED
  | EC_INITIALIZATION
  | EC_READY
  | EC_DENIED
  | EC_BLOCK
  | EC_BLOCK_ACK
  | EC_BLOCK_ERROR
  | EC_REMAINING
  | EC_REMAINING_ACK
  | EC_REMAINING_ERROR
  | EC_VERIFICATION
  | EC_VERIFICATION_SUCCESS
  | EC_VERIFICATION_FAIL
  | PA_REQUEST
  | PA_SUCCESS
  | PA_ERROR
  | FRAME_ENDED
  | FRAME_ENDED_ACK
  | DISCONNECTION
  | DISCONNECTION_ACK
deriving DecidableEq, Repr

/-- Integer value of each `QOSSTCodes` member (the `IntEnum` values). -/
def QOSSTCodes.toInt : QOSSTCodes → Int
  | .UNKOWN_COMMAND => 10
  | .UNEXPECTED_COMMAND => 11
  | .INVALID_CONTENT => 12
  | .INVALID_RESPONSE => 13
  | .INVALID_RESPONSE_ACK => 14
  | .ABORT => 15
  | .ABORT_ACK => 16
  | .AUTHENTICATION_INVALID => 17
  | .CHANGE_PARAMETER_REQUEST => 50
  | .PARAMETER_CHANGED => 51
  | .PARAMETER_UNKOWN => 52
  | .PARAMETER_INVALID_VALUE => 53
  | .PARAMETER_UNCHANGED => 54
  | .REQUEST_POLARISATION_RECOVERY => 70
  | .POLARISATION_RECOVERY_ACK => 71
  | .END_POLARISATION_RECOVERY => 72
  | .POLARISATION_RECOVERY_ENDED => 73
  | .IDENTIFICATION_REQUEST => 100
  | .IDENTIFICATION_RESPONSE => 101
  | .INVALID_QOSST_VERSION => 102
  | .INITIALIZATION_REQUEST => 120
  | .INITIALIZATION_ACCEPTED => 121
  | .INITIALIZATION_DENIED => 122
  | .INITIALIZATION_PROPOSAL => 123
  | .INITIALIZATION_REQUEST_CONFIG => 124
  | .INITIALIZATION_CONFIG => 125
  | .QIE_REQUEST => 140
  | .QIE_READY => 141
  | .QIE_TRIGGER => 142
  | .QIE_EMISSION_STARTED => 143
  | .QIE_ACQUISITION_ENDED => 144
  | .QIE_ENDED => 145
  | .PE_SYMBOLS_REQUEST => 160
  | .PE_SYMBOLS_RESPONSE => 161
  | .PE_SYMBOLS_ERROR => 162
  | .PE_NPHOTON_REQUEST => 163
  | .PE_NPHOTON_RESPONSE => 164
  | .PE_FINISHED => 165
  | .PE_APPROVED => 166
  | .PE_DENIED => 167
  | .EC_INITIALIZATION => 180
  | .EC_READY => 181
  | .EC_DENIED => 182
  | .EC_BLOCK => 183
  | .EC_BLOCK_ACK => 184
  | .EC_BLOCK_ERROR => 185
  | .EC_REMAINING => 186
  | .EC_REMAINING_ACK => 187
  | .EC_REMAINING_ERROR => 188
  | .EC_VERIFICATION => 189
  | .EC_VERIFICATION_SUCCESS => 190
  | .EC_VERIFICATION_FAIL => 191
  | .PA_REQUEST => 200
  | .PA_SUCCESS => 201
  | .PA_ERROR => 202
  | .FRAME_ENDED => 220
  | .FRAME_ENDED_ACK => 221
  | .DISCONNECTION => 222
  | .DISCONNECTION_ACK => 223

/-- Lookup of a `QOSSTCodes` member by value, i.e. the Python call
`QOSSTCodes(v)`: `none` models the `ValueError` raised for a value that is
not in the enumeration. -/
def QOSSTCodes.ofInt : Int → Option QOSSTCodes
  | 10 => some .UNKOWN_COMMAND
  | 11 => some .UNEXPECTED_COMMAND
  | 12 => some .INVALID_CONTENT
  | 13 => some .INVALID_RESPONSE
  | 14 => some .INVALID_RESPONSE_ACK
  | 15 => some .ABORT
  | 16 => some .ABORT_ACK
  | 17 => some .AUTHENTICATION_INVALID
  | 50 => some .CHANGE_PARAMETER_REQUEST
  | 51 => some .PARAMETER_CHANGED
  | 52 => some .PARAMETER_UNKOWN
  | 53 => some .PARAMETER_INVALID_VALUE
  | 54 => some .PARAMETER_UNCHANGED
  | 70 => some .REQUEST_POLARISATION_RECOVERY
  | 71 => some .POLARISATION_RECOVERY_ACK
  | 72 => some .END_POLARISATION_RECOVERY
  | 73 => some .POLARISATION_RECOVERY_ENDED
  | 100 => some .IDENTIFICATION_REQUEST
  | 101 => some .IDENTIFICATION_RESPONSE
  | 102 => some .INVALID_QOSST_VERSION
  | 120 => some .INITIALIZATION_REQUEST
  | 121 => some .INITIALIZATION_ACCEPTED
  | 122 => some .INITIALIZATION_DENIED
  | 123 => some .INITIALIZATION_PROPOSAL
  | 124 => some .INITIALIZATION_REQUEST_CONFIG
  | 125 => some .INITIALIZATION_CONFIG
  | 140 => some .QIE_REQUEST
  | 141 => some .QIE_READY
  | 142 => some .QIE_TRIGGER
  | 143 => some .QIE_EMISSION_STARTED
  | 144 => some .QIE_ACQUISITION_ENDED
  | 145 => some .QIE_ENDED
  | 160 => some .PE_SYMBOLS_REQUEST
  | 161 => some .PE_SYMBOLS_RESPONSE
  | 162 => some .PE_SYMBOLS_ERROR
  | 163 => some .PE_NPHOTON_REQUEST
  | 164 => some .PE_NPHOTON_RESPONSE
  | 165 => some .PE_FINISHED
  | 166 => some .PE_APPROVED
  | 167 => some .PE_DENIED
  | 180 => some .EC_INITIALIZATION
  | 181 => some .EC_READY
  | 182 => some .EC_DENIED
  | 183 => some .EC_BLOCK
  | 184 => some .EC_BLOCK_ACK
  | 185 => some .EC_BLOCK_ERROR
  | 186 => some .EC_REMAINING
  | 187 => some .EC_REMAINING_ACK
  | 188 => some .EC_REMAINING_ERROR
  | 189 => some .EC_VERIFICATION
  | 190 => some .EC_VERIFICATION_SUCCESS
  | 191 => some .EC_VERIFICATION_FAIL
  | 200 => some .PA_REQUEST
  | 201 => some .PA_SUCCESS
  | 202 => some .PA_ERROR
  | 220 => some .FRAME_ENDED
  | 221 => some .FRAME_ENDED_ACK
  | 222 => some .DISCONNECTION
  | 223 => some .DISCONNECTION_ACK
  | _ => none

/-- Local error codes of `codes.py` (`QOSSTErrorCodes`), never sent on the
wire. -/
inductive QOSSTErrorCodes where
  | SOCKET_DISCONNECTION
  | FRAME_ERROR
  | AUTHENTICATION_FAILURE
  | UNKOWN_CODE
deriving DecidableEq, Repr

/-- Integer values of the local error codes (negative, disjoint from the
wire codes). -/
def QOSSTErrorCodes.toInt : QOSSTErrorCodes → Int
  | .SOCKET_DISCONNECTION => -1
  | .FRAME_ERROR => -2
  | .AUTHENTICATION_FAILURE => -3
  | .UNKOWN_CODE => -4

/-! ## JSON documents

The protocol serializes Python dicts with `json.dumps(...).encode("utf-8")`
and parses them back with `json.loads(bytes.decode("utf-8"))`.  The dicts the
protocol builds are string-keyed with integer and string values, so the model
restricts JSON documents to that shape.  `dumpsObj` is the canonical byte
output of `json.dumps` on such a dict (default separators, insertion order);
`parseObj` is the parser for that canonical grammar, returning `none` for a
parse failure (the `json.JSONDecodeError` case). -/

/-- A JSON value of the shapes the protocol exchanges: an integer or a
string.  Strings are byte lists (the UTF-8 encoding of the Python `str`). -/
inductive JValue where
  | jint (n : Int)
  | jstr (s : List Nat)
deriving DecidableEq, Repr

/-- A JSON object: association list of key/value pairs in insertion order. -/
abbrev JObject := List (List Nat × JValue)

/-- Python dict lookup `obj[k]` as built by `json.loads`: with duplicate keys
the last occurrence wins; `none` models the `KeyError` / missing-key case. -/
def lookupJ (o : JObject) (k : List Nat) : Option JValue :=
  o.foldl (fun acc p => if p.1 = k then some p.2 else acc) none

/-- Decimal digits, most significant first, as ASCII bytes; structural
recursion on a fuel bound so that the kernel can evaluate it. -/
def natDigitsCore : Nat → Nat → List Nat
  | 0, _ => []
  | fuel + 1, n =>
    if n < 10 then [48 + n]
    else natDigitsCore fuel (n / 10) ++ [48 + n % 10]

/-- Decimal digits of a natural number, most significant first, as ASCII
bytes (`repr(n)` for `n ≥ 0`). -/
def natDigits (n : Nat) : List Nat :=
  natDigitsCore (n + 1) n

/-- `repr` of a Python integer, as ASCII bytes (what `json.dumps` emits for
an `int`). -/
def dumpsInt : Int → List Nat
  | .ofNat n => natDigits n
  | .negSucc m => 45 :: natDigits (m + 1)

/-- `json.dumps` output for one value. -/
def dumpsVal : JValue → List Nat
  | .jint n => dumpsInt n
  | .jstr s => 34 :: s ++ [34]

/-- `json.dumps` output for one `"key": value` pair (separator `": "`). -/
def dumpsKV (p : List Nat × JValue) : List Nat :=
  34 :: p.1 ++ [34, 58, 32] ++ dumpsVal p.2

/-- Entries of a dict joined with the default item separator `", "`. -/
def dumpsEntries : JObject → List Nat
  | [] => []
  | [p] => dumpsKV p
  | p :: q :: rest => dumpsKV p ++ [44, 32] ++ dumpsEntries (q :: rest)

/-- `json.dumps(d).encode("utf-8")` for a dict `d` of the modelled shape. -/
def dumpsObj (o : JObject) : List Nat :=
  123 :: dumpsEntries o ++ [125]

/-- Longest prefix of ASCII decimal digits, and the remaining input. -/
def parseDigits : List Nat → List Nat × List Nat
  | [] => ([], [])
  | b :: rest =>
    if 48 ≤ b ∧ b ≤ 57 then
      let p := parseDigits rest
      (b :: p.1, p.2)
    else ([], b :: rest)

/-- Numeric value of a digit run (most significant first). -/
def digitsToNat (ds : List Nat) : Nat :=
  ds.foldl (fun acc d => acc * 10 + (d - 48)) 0

/-- Scan a JSON string body up to the closing quote.  Escape sequences are
outside the modelled subset, so a backslash fails the parse. -/
def parseStringBody : List Nat → Option (List Nat × List Nat)
  | [] => none
  | b :: rest =>
    if b = 34 then some ([], rest)
    else if b = 92 then none
    else do
      let p ← parseStringBody rest
      some (b :: p.1, p.2)

/-- Parse one JSON value of the modelled subset (string or integer). -/
def parseValue (bs : List Nat) : Option (JValue × List Nat) :=
  match bs with
  | [] => none
  | b :: rest =>
    if b = 34 then
      match parseStringBody rest with
      | none => none
      | some (s, r) => some (.jstr s, r)
    else if b = 45 then
      match parseDigits rest with
      | ([], _) => none
      | (d :: ds, r) => some (.jint (-(digitsToNat (d :: ds) : Int)), r)
    else
      match parseDigits (b :: rest) with
      | ([], _) => none
      | (d :: ds, r) => some (.jint (digitsToNat (d :: ds) : Int), r)

/-- Parse the entries of an object after the opening `{`, consuming the
closing `}`.  The fuel argument bounds the number of entries; callers pass
the input length, which suffices since every entry consumes bytes. -/
def parseEntriesAux : Nat → List Nat → Option (JObject × List Nat)
  | 0, _ => none
  | fuel + 1, 34 :: rest =>
    match parseStringBody rest with
    | none => none
    | some (k, rest2) =>
      match rest2 with
      | 58 :: 32 :: rest3 =>
        match parseValue rest3 with
        | none => none
        | some (v, rest4) =>
          match rest4 with
          | 125 :: rest5 => some ([(k, v)], rest5)
          | 44 :: 32 :: rest5 =>
            match parseEntriesAux fuel rest5 with
            | none => none
            | some (o, rest6) => some ((k, v) :: o, rest6)
          | _ => none
      | _ => none
  | _ + 1, _ => none

/-- `json.loads` on the modelled subset: a whole input must be exactly one
object.  `none` models `json.JSONDecodeError`. -/
def parseObj (bs : List Nat) : Option JObject :=
  match bs with
  | [] => none
  | b :: rest =>
    if b = 123 then
      if rest = [125] then some []
      else
        match parseEntriesAux rest.length rest with
        | some (o, []) => some o
        | _ => none
    else none

/-- One step of the UTF-8 acceptance automaton (RFC 3629).  States:
`0` start, `1` expect one continuation byte, `2` expect two (generic),
`3` after `E0`, `4` after `ED`, `5` expect three (after `F1`–`F3`),
`6` after `F0`, `7` after `F4`; `none` is the reject state. -/
def utf8Step (state : Option Nat) (b : Nat) : Option Nat :=
  match state with
  | none => none
  | some 0 =>
    if b < 128 then some 0
    else if 194 ≤ b ∧ b ≤ 223 then some 1
    else if b = 224 then some 3
    else if (225 ≤ b ∧ b ≤ 236) ∨ b = 238 ∨ b = 239 then some 2
    else if b = 237 then some 4
    else if b = 240 then some 6
    else if 241 ≤ b ∧ b ≤ 243 then some 5
    else if b = 244 then some 7
    else none
  | some 1 => if 128 ≤ b ∧ b ≤ 191 then some 0 else none
  | some 2 => if 128 ≤ b ∧ b ≤ 191 then some 1 else none
  | some 3 => if 160 ≤ b ∧ b ≤ 191 then some 1 else none
  | some 4 => if 128 ≤ b ∧ b ≤ 159 then some 1 else none
  | some 5 => if 128 ≤ b ∧ b ≤ 191 then some 2 else none
  | some 6 => if 144 ≤ b ∧ b ≤ 191 then some 2 else none
  | some 7 => if 128 ≤ b ∧ b ≤ 143 then some 2 else none
  | some _ => none

/-- UTF-8 validity of a byte list (RFC 3629), modelling whether
`bytes.decode("utf-8")` succeeds or raises `UnicodeDecodeError`. -/
def utf8Valid (l : List Nat) : Bool :=
  l.foldl utf8Step (some 0) = some 0

/-! ## Authenticator capability and external collaborators -/

/-- The authenticator contract of `qosst_core/authentication/base.py`
(`BaseAuthenticator`): `sign_digest` and `check_digest`. -/
structure Authenticator where
  sign_digest : List Nat → List Nat
  check_digest : List Nat → List Nat → Bool

/-- `NoneAuthenticator`: signing is the identity, checking is byte equality. -/
def NoneAuthenticator : Authenticator where
  sign_digest := fun digest => digest
  check_digest := fun digest signed_digest => digest = signed_digest

/-- External collaborators of a `QOSSTSocket`: the SHA-256 function of
`hashlib` (abstract — any deterministic byte function; in reality its output
always has 32 bytes) and the authenticator instance `self.auth`. -/
structure NetCtx where
  sha256 : List Nat → List Nat
  auth : Authenticator

/-! ## Wire primitives -/

/-- `len(x).to_bytes(2, "big")` for values below `2 ** 16` (above that Python
raises `OverflowError`; the protocol never reaches that). -/
def u16be (n : Nat) : List Nat :=
  [n / 256 % 256, n % 256]

/-- `int.from_bytes(bs, "big")` on an arbitrary-length byte list. -/
def beNat (bs : List Nat) : Nat :=
  bs.foldl (fun acc b => 256 * acc + b) 0

/-- Python slice `l[:n]` for an `int` index `n`: a negative index counts from
the end. -/
def pyTake (n : Int) (l : List Nat) : List Nat :=
  if 0 ≤ n then l.take n.toNat else l.take (l.length - (-n).toNat)

/-! ## `QOSSTSocket.send`

`send` is pure once the freshly generated `next_challenge` is a parameter:
it builds the variable header dict in insertion order, serializes, signs the
SHA-256 digest of `variable_header_bytes + data_bytes`, and emits
`fixed_header + signed_digest + message`.  It returns the emitted bytes and
the new value of `self.challenge`. -/

/-- Key bytes of `"code"`. -/
def kCode : List Nat := [99, 111, 100, 101]

/-- Key bytes of `"content_length"`. -/
def kContentLength : List Nat :=
  [99, 111, 110, 116, 101, 110, 116, 95, 108, 101, 110, 103, 116, 104]

/-- Key bytes of `"challenge"`. -/
def kChallenge : List Nat := [99, 104, 97, 108, 108, 101, 110, 103, 101]

/-- Key bytes of `"next_challenge"`. -/
def kNextChallenge : List Nat :=
  [110, 101, 120, 116, 95, 99, 104, 97, 108, 108, 101, 110, 103, 101]

/-- Serialized payload: `json.dumps(data).encode("utf-8")` when `data` is
truthy, `b""` when `data` is `None` or the empty dict (`if data:`). -/
def dataBytes (data : Option JObject) : List Nat :=
  match data with
  | none => []
  | some d => if d = [] then [] else dumpsObj d

/-- The variable-length header dict built by `send` (insertion order as in
the source). -/
def sendHeader (code : QOSSTCodes) (content_length : Nat) (challenge : JValue)
    (next_challenge : List Nat) : JObject :=
  [(kCode, .jint code.toInt), (kContentLength, .jint content_length),
   (kChallenge, challenge), (kNextChallenge, .jstr next_challenge)]

/-- `QOSSTSocket.send` (lines 96–158 of `sockets.py`): returns the bytes
passed to `socket.sendall` and the updated `self.challenge`.  `challenge` is
the stored `self.challenge`; `next_challenge` stands for the freshly drawn
random alphanumeric string. -/
def send (ctx : NetCtx) (challenge : JValue) (next_challenge : List Nat)
    (code : QOSSTCodes) (data : Option JObject) : List Nat × JValue :=
  let data_bytes := dataBytes data
  let variable_header := sendHeader code data_bytes.length challenge next_challenge
  let variable_header_bytes := dumpsObj variable_header
  let message := variable_header_bytes ++ data_bytes
  let digest := ctx.sha256 message
  let signed_digest := ctx.auth.sign_digest digest
  let fixed_header := u16be variable_header_bytes.length ++ u16be signed_digest.length
  (fixed_header ++ signed_digest ++ message, .jstr next_challenge)

/-! ## `QOSSTSocket.recv`

The network is the list of chunks successive `socket.recv` calls return; an
empty chunk models a zero-byte read (peer gone, or a `ConnectionError`
mapped to `b""` by the source).  Each `while` loop of the source becomes a
recursion over the remaining chunks.  A loop that would keep blocking after
the chunk list is exhausted yields the `blocked` outcome (the source would
wait forever); an uncaught Python exception yields the `raises` outcome. -/

/-- Result of a `recv` call. -/
inductive RecvResult where
  | ok (code : QOSSTCodes) (content : Option JObject)
  | err (e : QOSSTErrorCodes)
  | blocked
  | raises
deriving DecidableEq, Repr

/-- `recv`'s result together with the value of `self.challenge` after the
call. -/
structure RecvOut where
  result : RecvResult
  challenge : JValue
deriving DecidableEq, Repr

/-- Outcome of the first `while` loop of `recv` (lines 179–197): every
iteration appends a chunk, reinterprets the first two 2-byte fields and drops
them from the buffer. -/
inductive FixedHeaderOut where
  | disconnected
  | blocked
  | done (header_size digest_size : Nat) (buffer : List Nat)
      (chunks : List (List Nat))
deriving Repr

/-- First `while` loop of `recv`: `while len(recv_buffer) < 4`.  A zero-byte
read here returns `SOCKET_DISCONNECTION`. -/
def fixedHeaderLoop (buffer : List Nat) (header_size digest_size : Nat) :
    List (List Nat) → FixedHeaderOut
  | [] =>
    if buffer.length < 4 then .blocked
    else .done header_size digest_size buffer []
  | c :: rest =>
    if buffer.length < 4 then
      if c = [] then .disconnected
      else
        fixedHeaderLoop ((buffer ++ c).drop 4) (beNat ((buffer ++ c).take 2))
          (beNat (((buffer ++ c).drop 2).take 2)) rest
    else .done header_size digest_size buffer (c :: rest)

/-- Outcome of the three later read loops (digest, header, content): a
zero-byte read there returns `FRAME_ERROR`. -/
inductive ReadOut where
  | frameError
  | blocked
  | done (buffer : List Nat) (chunks : List (List Nat))
deriving Repr

/-- `while len(recv_buffer) < target` with a `Nat` target (digest and header
loops, lines 200–213 and 220–233). -/
def readUntil (target : Nat) : List Nat → List (List Nat) → ReadOut
  | buffer, [] =>
    if buffer.length < target then .blocked else .done buffer []
  | buffer, c :: rest =>
    if buffer.length < target then
      if c = [] then .frameError else readUntil target (buffer ++ c) rest
    else .done buffer (c :: rest)

/-- `while len(recv_buffer) < content_length` (lines 263–276):
`content_length` comes from the parsed header, hence is a Python `int` that
may be negative. -/
def readUntilInt (target : Int) : List Nat → List (List Nat) → ReadOut
  | buffer, [] =>
    if (buffer.length : Int) < target then .blocked else .done buffer []
  | buffer, c :: rest =>
    if (buffer.length : Int) < target then
      if c = [] then .frameError else readUntilInt target (buffer ++ c) rest
    else .done buffer (c :: rest)

/-- Lines 290–334 of `recv`: code registry lookup, digest verification,
challenge validation, and the adoption of the peer's `next_challenge`. -/
def finishFrame (ctx : NetCtx) (challenge : JValue) (signed_digest : List Nat)
    (codeV challengeV nextChallengeV : JValue) (content : Option JObject)
    (header_bytes content_bytes : List Nat) : RecvOut :=
  match codeV with
  | .jstr _ => ⟨.err .UNKOWN_CODE, challenge⟩
  | .jint n =>
    match QOSSTCodes.ofInt n with
    | none => ⟨.err .UNKOWN_CODE, challenge⟩
    | some code =>
      let digest := ctx.sha256 (header_bytes ++ content_bytes)
      if ¬ ctx.auth.check_digest digest signed_digest then
        ⟨.err .AUTHENTICATION_FAILURE, challenge⟩
      else if ¬ challenge = challengeV ∧ code ≠ .IDENTIFICATION_REQUEST then
        ⟨.err .AUTHENTICATION_FAILURE, challenge⟩
      else
        ⟨.ok code content, nextChallengeV⟩

/-- Lines 258–288 of `recv`: the content section.  `if content_length:` is
Python truthiness; comparing `len(recv_buffer)` against a non-integer
`content_length` raises an uncaught `TypeError`. -/
def readContent (ctx : NetCtx) (challenge : JValue) (signed_digest : List Nat)
    (codeV challengeV nextChallengeV clV : JValue)
    (header_bytes buffer : List Nat) (chunks : List (List Nat)) : RecvOut :=
  match clV with
  | .jint n =>
    if n ≠ 0 then
      match readUntilInt n buffer chunks with
      | .blocked => ⟨.blocked, challenge⟩
      | .frameError => ⟨.err .FRAME_ERROR, challenge⟩
      | .done buf _ =>
        let content_bytes := pyTake n buf
        if ¬ utf8Valid content_bytes then ⟨.raises, challenge⟩
        else
          match parseObj content_bytes with
          | none => ⟨.err .FRAME_ERROR, challenge⟩
          | some content =>
            finishFrame ctx challenge signed_digest codeV challengeV
              nextChallengeV (some content) header_bytes content_bytes
    else
      finishFrame ctx challenge signed_digest codeV challengeV nextChallengeV
        none header_bytes []
  | .jstr s =>
    if s ≠ [] then ⟨.raises, challenge⟩
    else
      finishFrame ctx challenge signed_digest codeV challengeV nextChallengeV
        none header_bytes []

/-- Lines 235–288 of `recv` once the header bytes are buffered: UTF-8
decoding, JSON parsing, the four-key well-formedness check, and the content
section. -/
def handleHeader (ctx : NetCtx) (challenge : JValue) (signed_digest : List Nat)
    (header_bytes buffer : List Nat) (chunks : List (List Nat)) : RecvOut :=
  if ¬ utf8Valid header_bytes then ⟨.raises, challenge⟩
  else
    match parseObj header_bytes with
    | none => ⟨.err .FRAME_ERROR, challenge⟩
    | some header =>
      match lookupJ header kCode, lookupJ header kChallenge,
          lookupJ header kNextChallenge, lookupJ header kContentLength with
      | some codeV, some challengeV, some nextChallengeV, some clV =>
        readContent ctx challenge signed_digest codeV challengeV
          nextChallengeV clV header_bytes buffer chunks
      | _, _, _, _ => ⟨.err .FRAME_ERROR, challenge⟩

/-- `QOSSTSocket.recv` (lines 161–334 of `sockets.py`) on an established
connection.  `challenge` is the stored `self.challenge` at entry. -/
def recv (ctx : NetCtx) (challenge : JValue) (chunks : List (List Nat)) :
    RecvOut :=
  match fixedHeaderLoop [] 0 0 chunks with
  | .blocked => ⟨.blocked, challenge⟩
  | .disconnected => ⟨.err .SOCKET_DISCONNECTION, challenge⟩
  | .done header_size digest_size buf chunks1 =>
    match readUntil digest_size buf chunks1 with
    | .blocked => ⟨.blocked, challenge⟩
    | .frameError => ⟨.err .FRAME_ERROR, challenge⟩
    | .done buf1 chunks2 =>
      let signed_digest := buf1.take digest_size
      let buf2 := buf1.drop digest_size
      match readUntil header_size buf2 chunks2 with
      | .blocked => ⟨.blocked, challenge⟩
      | .frameError => ⟨.err .FRAME_ERROR, challenge⟩
      | .done buf3 chunks3 =>
        handleHeader ctx challenge signed_digest (buf3.take header_size)
          (buf3.drop header_size) chunks3

/-! ## `QOSSTClient.request`

`request` sends, receives, and on `SOCKET_DISCONNECTION` reconnects and
calls itself recursively.  The environment is abstracted to the list of
results the successive `recv` calls deliver; the model recurses over that
list and counts the reconnect-and-retry steps.  `none` means the environment
was exhausted while the recursion kept going (the unbounded-recursion case
has no result). -/

/-- `QOSSTClient.request` (lines 371–396 of `sockets.py`): returns the final
received result together with the number of automatic reconnect-and-retry
steps that were taken before it. -/
def request : List RecvResult → Option (RecvResult × Nat)
  | [] => none
  | r :: rest =>
    if r = .err .SOCKET_DISCONNECTION then
      match request rest with
      | none => none
      | some (res, n) => some (res, n + 1)
    else some (r, 0)

/-! ## Socket lifecycle (`close` / `open`)

Only the attribute state that `close` consults is modelled: for the base
class, `self.socket` (set to `None` in `__init__`) and whether it is still
registered with the selector; for `QOSSTServer`, additionally
`self.host_socket`, which is only a class-level annotation until `open()`
assigns it, so reading it before `open()` raises `AttributeError`. -/

/-- A Python exception that escapes a modelled call. -/
inductive PyError where
  | attributeError
deriving DecidableEq, Repr

/-- State of the `QOSSTSocket` attributes used by `close`. -/
structure SocketState where
  socket : Option Bool
  registered : Bool
deriving DecidableEq, Repr

/-- Attribute state right after `QOSSTSocket.__init__`: `self.socket = None`. -/
def initSocketState : SocketState :=
  { socket := none, registered := false }

/-- `QOSSTSocket.close` (lines 336–345): `if self.socket:` guards both the
selector unregistration (with `KeyError` swallowed) and `socket.close()`. -/
def socketClose (s : SocketState) : SocketState :=
  match s.socket with
  | none => s
  | some _ => { socket := some false, registered := false }

/-- State of the `QOSSTServer` attributes used by `close`: the inherited
base state plus `self.host_socket`; `none` means the attribute was never
assigned (annotation only). -/
structure ServerState where
  base : SocketState
  host_socket : Option Bool
deriving DecidableEq, Repr

/-- Attribute state of a `QOSSTServer` right after `__init__`: the
`host_socket` annotation has no value yet. -/
def initServerState : ServerState :=
  { base := initSocketState, host_socket := none }

/-- `QOSSTServer.open` (lines 407–413): assigns `self.host_socket`. -/
def serverOpen (s : ServerState) : ServerState :=
  { s with host_socket := some true }

/-- `QOSSTServer.close` (lines 454–460): evaluates `if self.host_socket:`
unconditionally, so it raises `AttributeError` when `open()` never assigned
the attribute; otherwise it closes the host socket and runs the inherited
`close`. -/
def serverClose (s : ServerState) : Except PyError ServerState :=
  match s.host_socket with
  | none => .error .attributeError
  | some _ => .ok { base := socketClose s.base, host_socket := some false }

/-! ## Validity predicates and concrete instantiations

`safeByteB` marks the bytes that `json.dumps` copies into a string literal
verbatim (printable ASCII without quote and backslash); challenges are
alphanumeric, so they are safe.  `validObjB` is the class of dicts whose
canonical serialization round-trips. -/

/-- Byte that `json.dumps` emits verbatim inside a string literal. -/
def safeByteB (b : Nat) : Bool :=
  decide (32 ≤ b) && decide (b ≤ 126) && decide (b ≠ 34) && decide (b ≠ 92)

/-- String (byte list) made of safe bytes only. -/
def safeStrB (s : List Nat) : Bool :=
  s.all safeByteB

/-- Value of the modelled subset whose serialization round-trips. -/
def validValB : JValue → Bool
  | .jint _ => true
  | .jstr s => safeStrB s

/-- Object whose serialization round-trips: safe keys and valid values. -/
def validObjB (o : JObject) : Bool :=
  o.all fun p => safeStrB p.1 && validValB p.2

/-- What `recv` hands to the caller as the content for a given `send` data
argument: `None` for `None` and for the empty dict. -/
def payloadOf (data : Option JObject) : Option JObject :=
  match data with
  | none => none
  | some d => if d = [] then none else some d

/-- Whether a `recv` result is an accepted frame. -/
def RecvResult.isOk : RecvResult → Bool
  | .ok _ _ => true
  | _ => false

/-- A variable header as a peer can put it on the wire: like `sendHeader`,
but with an arbitrary integer in the code field. -/
def rawHeader (ci : Int) (content_length : Nat) (c1 c2 : List Nat) : JObject :=
  [(kCode, .jint ci), (kContentLength, .jint content_length),
   (kChallenge, .jstr c1), (kNextChallenge, .jstr c2)]

/-- A frame as laid out on the wire by the sender, with the code field an
arbitrary integer (not necessarily a registered code) and the signature
computed over the digest by the identity (no-op) signer.  Coincides with the
output of `send` when the code is registered. -/
def mkFrame (sha : List Nat → List Nat) (ci : Int) (c1 c2 : List Nat)
    (data : Option JObject) : List Nat :=
  let db := dataBytes data
  let vhb := dumpsObj (rawHeader ci db.length c1 c2)
  let sig := sha (vhb ++ db)
  u16be vhb.length ++ u16be sig.length ++ sig ++ vhb ++ db

/-- A concrete stand-in for SHA-256 in closed statements: a constant
32-byte output (any deterministic function of that output length works for
the properties at issue). -/
def shaExample : List Nat → List Nat := fun _ => List.replicate 32 7

/-- Concrete collaborator set: the stand-in hash plus `NoneAuthenticator`. -/
def exampleCtx : NetCtx := ⟨shaExample, NoneAuthenticator⟩

/-- The input after a serialized token never continues with a decimal
digit (it continues with `}`, `", "` or is exhausted). -/
def headNotDigit : List Nat → Prop
  | [] => True
  | b :: _ => ¬(48 ≤ b ∧ b ≤ 57)

/-- Whether the data argument of `send` serializes round-trippably. -/
def validDataB : Option JObject → Bool
  | none => true
  | some d => validObjB d

/-- A syntactically well-formed variable header whose `content_length` field
is the JSON string `"5"` instead of an integer: all four keys are present,
so the well-formedness check of `recv` passes, and the comparison
`len(recv_buffer) < content_length` then raises an uncaught `TypeError`. -/
def contentLengthStrHeader : JObject :=
  [(kCode, .jint 100), (kContentLength, .jstr [53]),
   (kChallenge, .jstr []), (kNextChallenge, .jstr [])]

/-! ## Round-trip of the canonical serialization -/

theorem natDigitsCore_irrel (f : Nat) :
    ∀ g n, n < f → n < g → natDigitsCore f n = natDigitsCore g n := by
  induction f with
  | zero => intro g n h _; omega
  | succ f ih =>
    intro g n hf hg
    match g with
    | 0 => omega
    | g + 1 =>
      simp only [natDigitsCore]
      by_cases h10 : n < 10
      · simp [h10]
      · simp only [h10, if_false]
        have hdiv : n / 10 < n := Nat.div_lt_self (by omega) (by omega)
        rw [ih g (n / 10) (by omega) (by omega)]

theorem natDigits_lt10 {n : Nat} (h : n < 10) : natDigits n = [48 + n] := by
  simp [natDigits, natDigitsCore, h]

theorem natDigits_ge10 {n : Nat} (h : ¬ n < 10) :
    natDigits n = natDigits (n / 10) ++ [48 + n % 10] := by
  have h1 : natDigitsCore (n + 1) n
      = if n < 10 then [48 + n] else natDigitsCore n (n / 10) ++ [48 + n % 10] := rfl
  have hdiv : n / 10 < n := Nat.div_lt_self (by omega) (by omega)
  rw [natDigits, h1, if_neg h,
    natDigitsCore_irrel n (n / 10 + 1) (n / 10) (by omega) (by omega)]
  rfl

theorem natDigits_mem {n b : Nat} (hb : b ∈ natDigits n) : 48 ≤ b ∧ b ≤ 57 := by
  induction n using Nat.strong_induction_on with
  | _ n ih =>
    by_cases h10 : n < 10
    · rw [natDigits_lt10 h10] at hb
      simp at hb
      omega
    · rw [natDigits_ge10 h10] at hb
      rcases List.mem_append.mp hb with h | h
      · exact ih (n / 10) (Nat.div_lt_self (by omega) (by omega)) h
      · simp at h
        have : n % 10 < 10 := Nat.mod_lt _ (by omega)
        omega

theorem natDigits_ne_nil (n : Nat) : natDigits n ≠ [] := by
  by_cases h10 : n < 10
  · rw [natDigits_lt10 h10]; simp
  · rw [natDigits_ge10 h10]; simp

theorem digitsToNat_append_last (ds : List Nat) (d : Nat) :
    digitsToNat (ds ++ [d]) = 10 * digitsToNat ds + (d - 48) := by
  simp [digitsToNat, List.foldl_append]
  omega

theorem digitsToNat_natDigits (n : Nat) : digitsToNat (natDigits n) = n := by
  induction n using Nat.strong_induction_on with
  | _ n ih =>
    by_cases h10 : n < 10
    · rw [natDigits_lt10 h10]
      simp [digitsToNat]
    · rw [natDigits_ge10 h10, digitsToNat_append_last,
        ih (n / 10) (Nat.div_lt_self (by omega) (by omega))]
      omega

theorem parseDigits_append {ds rest : List Nat}
    (hds : ∀ b ∈ ds, 48 ≤ b ∧ b ≤ 57) (hrest : headNotDigit rest) :
    parseDigits (ds ++ rest) = (ds, rest) := by
  induction ds with
  | nil =>
    simp only [List.nil_append]
    match rest with
    | [] => rfl
    | b :: r =>
      simp only [headNotDigit] at hrest
      simp [parseDigits, hrest]
  | cons d ds ih =>
    have hd : 48 ≤ d ∧ d ≤ 57 := hds d (by simp)
    simp only [List.cons_append, parseDigits, hd, if_true, and_self,
      List.append_eq]
    rw [ih fun b hb => hds b (by simp [hb])]

theorem parseStringBody_append {s rest : List Nat}
    (hs : ∀ b ∈ s, b ≠ 34 ∧ b ≠ 92) :
    parseStringBody (s ++ 34 :: rest) = some (s, rest) := by
  induction s with
  | nil => simp [parseStringBody]
  | cons b s ih =>
    have hb : b ≠ 34 ∧ b ≠ 92 := hs b (by simp)
    simp only [List.cons_append, parseStringBody, hb.1, hb.2, if_false,
      List.append_eq]
    rw [ih fun x hx => hs x (by simp [hx])]
    rfl

theorem safeStrB_mem {s : List Nat} (h : safeStrB s = true) :
    ∀ b ∈ s, 32 ≤ b ∧ b ≤ 126 ∧ b ≠ 34 ∧ b ≠ 92 := by
  intro b hb
  have := List.all_eq_true.mp h b hb
  simp only [safeByteB, Bool.and_eq_true, decide_eq_true_eq] at this
  tauto

theorem natDigits_exists_cons (n : Nat) :
    ∃ b t, natDigits n = b :: t := by
  match hnd : natDigits n with
  | [] => exact absurd hnd (natDigits_ne_nil n)
  | b :: t => exact ⟨b, t, rfl⟩

theorem parseValue_dumpsVal {v : JValue} {rest : List Nat}
    (hv : validValB v = true) (hrest : headNotDigit rest) :
    parseValue (dumpsVal v ++ rest) = some (v, rest) := by
  match v with
  | .jstr s =>
    have hs : ∀ b ∈ s, b ≠ 34 ∧ b ≠ 92 := by
      intro b hb
      have := safeStrB_mem (by simpa [validValB] using hv) b hb
      tauto
    have hshape : dumpsVal (.jstr s) ++ rest = 34 :: (s ++ 34 :: rest) := by
      simp [dumpsVal]
    rw [hshape]
    simp [parseValue, parseStringBody_append hs]
  | .jint (.ofNat n) =>
    obtain ⟨b, t, hnd⟩ := natDigits_exists_cons n
    have hb : 48 ≤ b ∧ b ≤ 57 := @natDigits_mem n b (by rw [hnd]; simp)
    have hshape : dumpsVal (.jint (.ofNat n)) ++ rest = b :: (t ++ rest) := by
      simp [dumpsVal, dumpsInt, hnd]
    have hpd : parseDigits (b :: (t ++ rest)) = (b :: t, rest) := by
      have h2 : b :: (t ++ rest) = (b :: t) ++ rest := by simp
      rw [h2, ← hnd]
      exact parseDigits_append (fun x hx => natDigits_mem hx) hrest
    have hval : digitsToNat (b :: t) = n := by
      rw [← hnd]; exact digitsToNat_natDigits n
    rw [hshape]
    simp only [parseValue, if_neg (show ¬ b = 34 by omega),
      if_neg (show ¬ b = 45 by omega), hpd, hval]
    rfl
  | .jint (.negSucc m) =>
    obtain ⟨b, t, hnd⟩ := natDigits_exists_cons (m + 1)
    have hshape : dumpsVal (.jint (.negSucc m)) ++ rest
        = 45 :: (natDigits (m + 1) ++ rest) := by
      simp [dumpsVal, dumpsInt]
    have hpd : parseDigits (natDigits (m + 1) ++ rest) = (b :: t, rest) := by
      rw [parseDigits_append (fun x hx => natDigits_mem hx) hrest, hnd]
    have hval : digitsToNat (b :: t) = m + 1 := by
      rw [← hnd]; exact digitsToNat_natDigits (m + 1)
    rw [hshape]
    simp only [parseValue, if_neg (show ¬ (45 : Nat) = 34 by omega), if_pos rfl,
      hpd, hval]
    simp [Int.negSucc_eq]

theorem dumpsKV_cons (p : List Nat × JValue) :
    ∃ t, dumpsKV p = 34 :: t :=
  ⟨p.1 ++ ([34, 58, 32] ++ dumpsVal p.2), by simp [dumpsKV]⟩

theorem dumpsEntries_length_ge (o : JObject) :
    o.length ≤ (dumpsEntries o).length := by
  induction o with
  | nil => simp [dumpsEntries]
  | cons p tail ih =>
    match tail with
    | [] =>
      obtain ⟨t, ht⟩ := dumpsKV_cons p
      simp [dumpsEntries, ht]
    | q :: tail' =>
      obtain ⟨t, ht⟩ := dumpsKV_cons p
      simp only [dumpsEntries, ht] at *
      simp only [List.length_cons, List.length_append]
      simp at ih ⊢
      omega

theorem dumpsEntries_ne_nil {o : JObject} (h : o ≠ []) :
    dumpsEntries o ≠ [] := by
  match o with
  | p :: tail =>
    obtain ⟨t, ht⟩ := dumpsKV_cons p
    match tail with
    | [] => simp [dumpsEntries, ht]
    | q :: tail' => simp [dumpsEntries, ht]

theorem validObjB_head {p : List Nat × JValue} {tail : JObject}
    (h : validObjB (p :: tail) = true) :
    safeStrB p.1 = true ∧ validValB p.2 = true := by
  have := List.all_eq_true.mp h p (by simp)
  simpa [Bool.and_eq_true] using this

theorem validObjB_tail {p : List Nat × JValue} {tail : JObject}
    (h : validObjB (p :: tail) = true) : validObjB tail = true := by
  apply List.all_eq_true.mpr
  intro q hq
  exact List.all_eq_true.mp h q (by simp [hq])

theorem parseEntriesAux_dumps :
    ∀ (o : JObject) (fuel : Nat) (rest : List Nat), validObjB o = true →
      o ≠ [] → o.length ≤ fuel →
      parseEntriesAux fuel (dumpsEntries o ++ 125 :: rest) = some (o, rest) := by
  intro o
  induction o with
  | nil => intro fuel rest _ hne _; exact absurd rfl hne
  | cons p tail ih =>
    intro fuel rest hvalid _ hlen
    obtain ⟨k, v⟩ := p
    match fuel with
    | 0 => simp at hlen
    | fuel + 1 =>
      have hkv := validObjB_head hvalid
      have hk : ∀ b ∈ k, b ≠ 34 ∧ b ≠ 92 := by
        intro b hb; have := safeStrB_mem hkv.1 b hb; tauto
      match tail with
      | [] =>
        have hshape : dumpsEntries [(k, v)] ++ 125 :: rest
            = 34 :: (k ++ 34 :: (58 :: 32 :: (dumpsVal v ++ 125 :: rest))) := by
          simp [dumpsEntries, dumpsKV]
        rw [hshape]
        simp only [parseEntriesAux, parseStringBody_append hk,
          parseValue_dumpsVal hkv.2
            (show headNotDigit (125 :: rest) by simp [headNotDigit])]
      | q :: tail' =>
        have hvalid' : validObjB (q :: tail') = true := validObjB_tail hvalid
        have hshape : dumpsEntries ((k, v) :: q :: tail') ++ 125 :: rest
            = 34 :: (k ++ 34 :: (58 :: 32 :: (dumpsVal v
                ++ 44 :: 32 :: (dumpsEntries (q :: tail') ++ 125 :: rest)))) := by
          simp [dumpsEntries, dumpsKV]
        rw [hshape]
        simp only [parseEntriesAux, parseStringBody_append hk,
          parseValue_dumpsVal hkv.2
            (show headNotDigit (44 :: 32 :: (dumpsEntries (q :: tail') ++ 125 :: rest))
              by simp [headNotDigit])]
        rw [ih fuel rest hvalid' (by simp) (by simp at hlen ⊢; omega)]

theorem parseObj_dumpsObj {o : JObject} (h : validObjB o = true) :
    parseObj (dumpsObj o) = some o := by
  match o with
  | [] => decide
  | p :: tail =>
    have hne : dumpsEntries (p :: tail) ≠ [] := dumpsEntries_ne_nil (by simp)
    have hshape : dumpsObj (p :: tail)
        = 123 :: (dumpsEntries (p :: tail) ++ 125 :: []) := by
      simp [dumpsObj]
    rw [hshape]
    have hne125 : ¬ dumpsEntries (p :: tail) ++ 125 :: [] = [125] := by
      intro hcontra
      have := congrArg List.length hcontra
      simp at this
      exact hne this
    simp only [parseObj, if_pos rfl, if_neg hne125]
    rw [parseEntriesAux_dumps (p :: tail) _ [] h (by simp)
      (by
        have h1 := dumpsEntries_length_ge (p :: tail)
        simp only [List.length_append, List.length_cons, List.length_nil] at h1 ⊢
        omega)]
    simp

/-! ## ASCII facts about the canonical serialization -/

theorem utf8Valid_ascii {l : List Nat} (h : ∀ b ∈ l, b < 128) :
    utf8Valid l = true := by
  induction l with
  | nil => rfl
  | cons b rest ih =>
    have hb : b < 128 := h b (by simp)
    have hstep : utf8Step (some 0) b = some 0 := by
      simp [utf8Step, hb]
    simp only [utf8Valid, List.foldl_cons, hstep]
    exact ih fun x hx => h x (by simp [hx])

theorem dumpsInt_ascii {n : Int} : ∀ b ∈ dumpsInt n, b < 128 := by
  intro b hb
  match n with
  | .ofNat m =>
    have := @natDigits_mem m b hb
    omega
  | .negSucc m =>
    simp only [dumpsInt, List.mem_cons] at hb
    rcases hb with h | h
    · omega
    · have := @natDigits_mem (m + 1) b h
      omega

theorem dumpsVal_ascii {v : JValue} (hv : validValB v = true) :
    ∀ b ∈ dumpsVal v, b < 128 := by
  match v with
  | .jint n => exact fun b hb => dumpsInt_ascii b hb
  | .jstr s =>
    have hshape : dumpsVal (.jstr s) = 34 :: (s ++ [34]) := by simp [dumpsVal]
    rw [hshape]
    simp only [List.forall_mem_cons, List.forall_mem_append]
    refine ⟨by omega, fun b hb => ?_, by decide⟩
    have := safeStrB_mem (by simpa [validValB] using hv) b hb
    omega

theorem dumpsKV_ascii {p : List Nat × JValue}
    (hk : safeStrB p.1 = true) (hv : validValB p.2 = true) :
    ∀ b ∈ dumpsKV p, b < 128 := by
  have hshape : dumpsKV p = 34 :: (p.1 ++ ([34, 58, 32] ++ dumpsVal p.2)) := by
    simp [dumpsKV]
  rw [hshape]
  simp only [List.forall_mem_cons, List.forall_mem_append]
  refine ⟨by omega, fun b hb => ?_, by decide, dumpsVal_ascii hv⟩
  have := safeStrB_mem hk b hb
  omega

theorem dumpsEntries_ascii {o : JObject} (h : validObjB o = true) :
    ∀ b ∈ dumpsEntries o, b < 128 := by
  induction o with
  | nil => simp [dumpsEntries]
  | cons p tail ih =>
    have hp := validObjB_head h
    match tail with
    | [] =>
      exact fun b hb => dumpsKV_ascii hp.1 hp.2 b (by simpa [dumpsEntries] using hb)
    | q :: tail' =>
      have hshape : dumpsEntries (p :: q :: tail')
          = dumpsKV p ++ ([44, 32] ++ dumpsEntries (q :: tail')) := by
        simp [dumpsEntries]
      rw [hshape]
      simp only [List.forall_mem_append]
      exact ⟨dumpsKV_ascii hp.1 hp.2, by decide, ih (validObjB_tail h)⟩

theorem dumpsObj_ascii {o : JObject} (h : validObjB o = true) :
    ∀ b ∈ dumpsObj o, b < 128 := by
  have hshape : dumpsObj o = 123 :: (dumpsEntries o ++ [125]) := by
    simp [dumpsObj]
  rw [hshape]
  simp only [List.forall_mem_cons, List.forall_mem_append]
  exact ⟨by omega, dumpsEntries_ascii h, by decide⟩

/-! ## Wire-arithmetic facts -/

theorem u16be_length (n : Nat) : (u16be n).length = 2 := rfl

theorem beNat_u16be {n : Nat} (h : n < 65536) : beNat (u16be n) = n := by
  simp only [beNat, u16be, List.foldl]
  omega

/-! ## Header-field lookups -/

theorem lookupJ_hdr_code (a b c d : JValue) :
    lookupJ [(kCode, a), (kContentLength, b), (kChallenge, c),
      (kNextChallenge, d)] kCode = some a := rfl

theorem lookupJ_hdr_content_length (a b c d : JValue) :
    lookupJ [(kCode, a), (kContentLength, b), (kChallenge, c),
      (kNextChallenge, d)] kContentLength = some b := rfl

theorem lookupJ_hdr_challenge (a b c d : JValue) :
    lookupJ [(kCode, a), (kContentLength, b), (kChallenge, c),
      (kNextChallenge, d)] kChallenge = some c := rfl

theorem lookupJ_hdr_next_challenge (a b c d : JValue) :
    lookupJ [(kCode, a), (kContentLength, b), (kChallenge, c),
      (kNextChallenge, d)] kNextChallenge = some d := rfl

theorem validObjB_sendHeader {code : QOSSTCodes} {n : Nat} {c1 c2 : List Nat}
    (h1 : safeStrB c1 = true) (h2 : safeStrB c2 = true) :
    validObjB (sendHeader code n (.jstr c1) c2) = true := by
  have k1 : safeStrB kCode = true := by decide
  have k2 : safeStrB kContentLength = true := by decide
  have k3 : safeStrB kChallenge = true := by decide
  have k4 : safeStrB kNextChallenge = true := by decide
  simp [sendHeader, validObjB, validValB, k1, k2, k3, k4, h1, h2]

theorem validObjB_hdr {a b : JValue} {c1 c2 : List Nat}
    (ha : validValB a = true) (hb : validValB b = true)
    (h1 : safeStrB c1 = true) (h2 : safeStrB c2 = true) :
    validObjB [(kCode, a), (kContentLength, b), (kChallenge, .jstr c1),
      (kNextChallenge, .jstr c2)] = true := by
  have k1 : safeStrB kCode = true := by decide
  have k2 : safeStrB kContentLength = true := by decide
  have k3 : safeStrB kChallenge = true := by decide
  have k4 : safeStrB kNextChallenge = true := by decide
  simp [validObjB, validValB, k1, k2, k3, k4, h1, h2, ha, hb]
  exact ⟨ha, hb⟩

/-! ## Evaluation of the `recv` phases on a whole frame -/

theorem fixedHeaderLoop_whole {H S : Nat} {rest : List Nat}
    (hH : H < 65536) (hS : S < 65536) (hrest : 4 ≤ rest.length) :
    fixedHeaderLoop [] 0 0 [u16be H ++ (u16be S ++ rest)]
      = .done H S rest [] := by
  have hne : ¬ u16be H ++ (u16be S ++ rest) = [] := by
    intro hcontra
    have := congrArg List.length hcontra
    simp [u16be_length] at this
  simp only [fixedHeaderLoop, List.length_nil, if_pos (by omega : (0 : Nat) < 4),
    if_neg hne, List.nil_append]
  have htake2 : (u16be H ++ (u16be S ++ rest)).take 2 = u16be H :=
    List.take_left' (u16be_length H)
  have hdrop2 : (u16be H ++ (u16be S ++ rest)).drop 2 = u16be S ++ rest :=
    List.drop_left' (u16be_length H)
  have hdrop4 : (u16be H ++ (u16be S ++ rest)).drop 4 = rest := by
    rw [show (4 : Nat) = 2 + 2 from rfl, ← List.drop_drop, hdrop2,
      List.drop_left' (u16be_length S)]
  rw [htake2, hdrop2, hdrop4, List.take_left' (u16be_length S),
    beNat_u16be hH, beNat_u16be hS]
  simp only [fixedHeaderLoop, if_neg (by omega : ¬ rest.length < 4)]

theorem readUntil_done {target : Nat} {buffer : List Nat}
    {chunks : List (List Nat)} (h : target ≤ buffer.length) :
    readUntil target buffer chunks = .done buffer chunks := by
  cases chunks with
  | nil => simp only [readUntil, if_neg (by omega : ¬ buffer.length < target)]
  | cons c rest => simp only [readUntil, if_neg (by omega : ¬ buffer.length < target)]

theorem readUntilInt_done {target : Int} {buffer : List Nat}
    {chunks : List (List Nat)} (h : target ≤ (buffer.length : Int)) :
    readUntilInt target buffer chunks = .done buffer chunks := by
  cases chunks with
  | nil => simp only [readUntilInt, if_neg (by omega : ¬ (buffer.length : Int) < target)]
  | cons c rest => simp only [readUntilInt, if_neg (by omega : ¬ (buffer.length : Int) < target)]

theorem NoneAuthenticator_check_self (d : List Nat) :
    NoneAuthenticator.check_digest d d = true := by
  simp [NoneAuthenticator]

theorem rawHeader_valid {ci : Int} {n : Nat} {c1 c2 : List Nat}
    (h1 : safeStrB c1 = true) (h2 : safeStrB c2 = true) :
    validObjB (rawHeader ci n c1 c2) = true :=
  validObjB_hdr rfl rfl h1 h2

theorem handleHeader_raw (ctx : NetCtx) (challenge : JValue)
    (sig : List Nat) (ci : Int) (n : Nat) (c1 c2 : List Nat)
    (buffer : List Nat) (chunks : List (List Nat))
    (hc1 : safeStrB c1 = true) (hc2 : safeStrB c2 = true) :
    handleHeader ctx challenge sig (dumpsObj (rawHeader ci n c1 c2)) buffer chunks
      = readContent ctx challenge sig (.jint ci) (.jstr c1) (.jstr c2)
          (.jint n) (dumpsObj (rawHeader ci n c1 c2)) buffer chunks := by
  have hvh := @rawHeader_valid ci n c1 c2 hc1 hc2
  have hutf := utf8Valid_ascii (dumpsObj_ascii hvh)
  rw [handleHeader, if_neg (by rw [hutf]; simp), parseObj_dumpsObj hvh]
  simp only [rawHeader, lookupJ_hdr_code, lookupJ_hdr_challenge,
    lookupJ_hdr_next_challenge, lookupJ_hdr_content_length]

theorem recv_whole_frame (ctx : NetCtx) (ch : JValue) (sig vhb db : List Nat)
    (hsig : sig.length = 32) (hH : vhb.length < 65536) :
    recv ctx ch [u16be vhb.length ++ (u16be 32 ++ (sig ++ (vhb ++ db)))]
      = handleHeader ctx ch sig vhb db [] := by
  have e1 : fixedHeaderLoop [] 0 0
      [u16be vhb.length ++ (u16be 32 ++ (sig ++ (vhb ++ db)))]
      = .done vhb.length 32 (sig ++ (vhb ++ db)) [] :=
    fixedHeaderLoop_whole hH (by omega)
      (by simp only [List.length_append, hsig]; omega)
  have e2 : readUntil 32 (sig ++ (vhb ++ db)) [] = .done (sig ++ (vhb ++ db)) [] :=
    readUntil_done (by simp only [List.length_append, hsig]; omega)
  have e3 : (sig ++ (vhb ++ db)).take 32 = sig := List.take_left' hsig
  have e4 : (sig ++ (vhb ++ db)).drop 32 = vhb ++ db := List.drop_left' hsig
  have e5 : readUntil vhb.length (vhb ++ db) [] = .done (vhb ++ db) [] :=
    readUntil_done (by simp only [List.length_append]; omega)
  have e6 : (vhb ++ db).take vhb.length = vhb := List.take_left _ _
  have e7 : (vhb ++ db).drop vhb.length = db := List.drop_left _ _
  simp only [recv, e1, e2, e3, e4, e5, e6, e7]

theorem recv_mkFrame (sha : List Nat → List Nat)
    (h32 : ∀ m, (sha m).length = 32) (ci : Int) (c1 c2 : List Nat)
    (data : Option JObject) (hc1 : safeStrB c1 = true)
    (hc2 : safeStrB c2 = true) (hdata : validDataB data = true)
    (hlen : (dumpsObj (rawHeader ci (dataBytes data).length c1 c2)).length
      < 65536) :
    recv ⟨sha, NoneAuthenticator⟩ (.jstr c1) [mkFrame sha ci c1 c2 data]
      = match QOSSTCodes.ofInt ci with
        | some code => ⟨.ok code (payloadOf data), .jstr c2⟩
        | none => ⟨.err .UNKOWN_CODE, .jstr c1⟩ := by
  have hvh := @rawHeader_valid ci (dataBytes data).length c1 c2 hc1 hc2
  have hsig : (sha (dumpsObj (rawHeader ci (dataBytes data).length c1 c2)
      ++ dataBytes data)).length = 32 := h32 _
  have hframe : mkFrame sha ci c1 c2 data
      = u16be (dumpsObj (rawHeader ci (dataBytes data).length c1 c2)).length
        ++ (u16be 32
        ++ (sha (dumpsObj (rawHeader ci (dataBytes data).length c1 c2)
            ++ dataBytes data)
          ++ (dumpsObj (rawHeader ci (dataBytes data).length c1 c2)
            ++ dataBytes data))) := by
    simp only [mkFrame, hsig]
    simp [List.append_assoc]
  rw [hframe, recv_whole_frame _ _ _ _ _ hsig hlen]
  rw [handleHeader_raw _ _ _ _ _ _ _ _ _ hc1 hc2]
  match data with
  | none =>
    have hdb0 : dataBytes none = [] := rfl
    simp only [hdb0, List.length_nil, Nat.cast_zero, List.append_nil,
      readContent]
    rw [if_neg (by simp)]
    simp only [finishFrame]
    match hci : QOSSTCodes.ofInt ci with
    | some code =>
      simp only [hci]
      rw [if_neg (by simp [NoneAuthenticator_check_self])]
      rw [if_neg (by simp)]
      simp [payloadOf]
    | none => simp [hci]
  | some d =>
    by_cases hdnil : d = []
    · subst hdnil
      have hdb0 : dataBytes (some ([] : JObject)) = [] := rfl
      simp only [hdb0, List.length_nil, Nat.cast_zero, List.append_nil,
        readContent]
      rw [if_neg (by simp)]
      simp only [finishFrame]
      match hci : QOSSTCodes.ofInt ci with
      | some code =>
        simp only [hci]
        rw [if_neg (by simp [NoneAuthenticator_check_self])]
        rw [if_neg (by simp)]
        simp [payloadOf]
      | none => simp [hci]
    · have hdb2 : dataBytes (some d) = dumpsObj d := by
        simp [dataBytes, hdnil]
      have hdlen : 0 < (dumpsObj d).length := by
        simp [dumpsObj]
      have hvalid_d : validObjB d = true := by simpa [validDataB] using hdata
      rw [hdb2]
      simp only [readContent]
      rw [if_pos (by
        simp only [ne_eq, Nat.cast_eq_zero]
        omega)]
      have hpy : pyTake ((dumpsObj d).length : Int) (dumpsObj d)
          = dumpsObj d := by
        simp [pyTake]
      simp only [readUntilInt_done
          (le_refl (((dumpsObj d).length : Int))),
        hpy]
      rw [if_neg (by
        rw [utf8Valid_ascii (dumpsObj_ascii hvalid_d)]
        simp)]
      simp only [parseObj_dumpsObj hvalid_d]
      simp only [finishFrame]
      match hci : QOSSTCodes.ofInt ci with
      | some code =>
        simp only [hci]
        rw [if_neg (by simp [NoneAuthenticator_check_self])]
        rw [if_neg (by simp)]
        simp [payloadOf, hdnil]
      | none => simp [hci]

theorem ofInt_toInt (c : QOSSTCodes) : QOSSTCodes.ofInt c.toInt = some c := by
  cases c <;> rfl

theorem send_bytes_eq_mkFrame (sha : List Nat → List Nat) (c1 nc : List Nat)
    (code : QOSSTCodes) (data : Option JObject) :
    (send ⟨sha, NoneAuthenticator⟩ (.jstr c1) nc code data).1
      = mkFrame sha code.toInt c1 nc data := by
  simp [send, mkFrame, sendHeader, rawHeader, NoneAuthenticator,
    List.append_assoc]

/-! ## Which phases can produce which error codes -/

theorem finishFrame_ne_disc (ctx : NetCtx) (ch : JValue) (sd : List Nat)
    (cV chV ncV : JValue) (cont : Option JObject) (hb cb : List Nat) :
    (finishFrame ctx ch sd cV chV ncV cont hb cb).result
      ≠ .err .SOCKET_DISCONNECTION := by
  rcases cV with n | s
  · rcases h : QOSSTCodes.ofInt n with _ | code
    · simp [finishFrame, h]
    · simp only [finishFrame, h]
      split
      · simp
      · split
        · simp
        · simp
  · simp [finishFrame]

theorem readContent_ne_disc (ctx : NetCtx) (ch : JValue) (sd : List Nat)
    (cV chV ncV clV : JValue) (hb buf : List Nat) (chunks : List (List Nat)) :
    (readContent ctx ch sd cV chV ncV clV hb buf chunks).result
      ≠ .err .SOCKET_DISCONNECTION := by
  rcases clV with n | s
  · simp only [readContent]
    split
    · rcases h : readUntilInt n buf chunks with _ | _ | ⟨buf2, ch2⟩
      · simp [h]
      · simp [h]
      · simp only [h]
        split
        · simp
        · split
          · simp
          · exact finishFrame_ne_disc _ _ _ _ _ _ _ _ _
    · exact finishFrame_ne_disc _ _ _ _ _ _ _ _ _
  · simp only [readContent]
    split
    · simp
    · exact finishFrame_ne_disc _ _ _ _ _ _ _ _ _

theorem handleHeader_ne_disc (ctx : NetCtx) (ch : JValue) (sd : List Nat)
    (hb buf : List Nat) (chunks : List (List Nat)) :
    (handleHeader ctx ch sd hb buf chunks).result
      ≠ .err .SOCKET_DISCONNECTION := by
  simp only [handleHeader]
  split
  · simp
  · rcases h : parseObj hb with _ | header
    · simp [h]
    · simp only [h]
      rcases h1 : lookupJ header kCode with _ | cV
      · simp [h1]
      · rcases h2 : lookupJ header kChallenge with _ | chV
        · simp [h1, h2]
        · rcases h3 : lookupJ header kNextChallenge with _ | ncV
          · simp [h1, h2, h3]
          · rcases h4 : lookupJ header kContentLength with _ | clV
            · simp [h1, h2, h3, h4]
            · simp only [h1, h2, h3, h4]
              exact readContent_ne_disc _ _ _ _ _ _ _ _ _ _

theorem recv_disc_iff (ctx : NetCtx) (ch : JValue) (chunks : List (List Nat)) :
    (recv ctx ch chunks).result = .err .SOCKET_DISCONNECTION
      ↔ fixedHeaderLoop [] 0 0 chunks = .disconnected := by
  rcases h : fixedHeaderLoop [] 0 0 chunks with _ | _ | ⟨hs, ds, buf, rest⟩
  · simp [recv, h]
  · simp [recv, h]
  · simp only [recv, h]
    constructor
    · intro hres
      exfalso
      rcases h2 : readUntil ds buf rest with _ | _ | ⟨buf1, rest1⟩ <;>
        rw [h2] at hres <;> simp at hres
      rcases h3 : readUntil hs (buf1.drop ds) rest1 with _ | _ | ⟨buf2, rest2⟩ <;>
        rw [h3] at hres <;> simp at hres
      exact handleHeader_ne_disc _ _ _ _ _ _ hres
    · intro hcontra
      simp at hcontra

/-! ## Challenge preservation -/

theorem finishFrame_challenge_or (ctx : NetCtx) (ch : JValue)
    (sd : List Nat) (cV chV ncV : JValue) (cont : Option JObject)
    (hb cb : List Nat) :
    ((finishFrame ctx ch sd cV chV ncV cont hb cb).result.isOk = false
      ∧ (finishFrame ctx ch sd cV chV ncV cont hb cb).challenge = ch)
    ∨ ((finishFrame ctx ch sd cV chV ncV cont hb cb).result.isOk = true
      ∧ (finishFrame ctx ch sd cV chV ncV cont hb cb).challenge = ncV) := by
  rcases cV with n | s
  · rcases hc : QOSSTCodes.ofInt n with _ | code
    · simp [finishFrame, hc, RecvResult.isOk]
    · simp only [finishFrame, hc]
      split
      · simp [RecvResult.isOk]
      · split
        · simp [RecvResult.isOk]
        · right
          exact ⟨rfl, rfl⟩
  · simp [finishFrame, RecvResult.isOk]

theorem finishFrame_challenge_of_not_ok (ctx : NetCtx) (ch : JValue)
    (sd : List Nat) (cV chV ncV : JValue) (cont : Option JObject)
    (hb cb : List Nat)
    (h : (finishFrame ctx ch sd cV chV ncV cont hb cb).result.isOk = false) :
    (finishFrame ctx ch sd cV chV ncV cont hb cb).challenge = ch := by
  rcases finishFrame_challenge_or ctx ch sd cV chV ncV cont hb cb with
    ⟨_, h2⟩ | ⟨h1, _⟩
  · exact h2
  · rw [h1] at h
    cases h

theorem finishFrame_ok_challenge (ctx : NetCtx) (ch : JValue) (sd : List Nat)
    (cV chV ncV : JValue) (cont : Option JObject) (hb cb : List Nat)
    (c : QOSSTCodes) (p : Option JObject) (ch' : JValue)
    (h : finishFrame ctx ch sd cV chV ncV cont hb cb = ⟨.ok c p, ch'⟩) :
    ch' = ncV := by
  rcases finishFrame_challenge_or ctx ch sd cV chV ncV cont hb cb with
    ⟨h1, _⟩ | ⟨_, h2⟩
  · rw [h] at h1
    simp [RecvResult.isOk] at h1
  · rw [h] at h2
    exact h2

theorem readContent_challenge_or (ctx : NetCtx) (ch : JValue)
    (sd : List Nat) (cV chV ncV clV : JValue) (hb buf : List Nat)
    (chunks : List (List Nat)) :
    (readContent ctx ch sd cV chV ncV clV hb buf chunks).challenge = ch
    ∨ (readContent ctx ch sd cV chV ncV clV hb buf chunks).result.isOk
      = true := by
  have hfin : ∀ cont cb,
      (finishFrame ctx ch sd cV chV ncV cont hb cb).challenge = ch
      ∨ (finishFrame ctx ch sd cV chV ncV cont hb cb).result.isOk = true := by
    intro cont cb
    rcases finishFrame_challenge_or ctx ch sd cV chV ncV cont hb cb with
      ⟨_, h2⟩ | ⟨h1, _⟩
    · exact Or.inl h2
    · exact Or.inr h1
  rcases clV with n | s
  · simp only [readContent]
    split
    · rcases hr : readUntilInt n buf chunks with _ | _ | ⟨buf2, ch2⟩
      · simp
      · simp
      · simp only
        split
        · simp
        · rcases hp : parseObj (pyTake n buf2) with _ | content
          · simp
          · exact hfin (some content) (pyTake n buf2)
    · exact hfin none []
  · simp only [readContent]
    split
    · simp
    · exact hfin none []

theorem handleHeader_challenge_or (ctx : NetCtx) (ch : JValue)
    (sd : List Nat) (hb buf : List Nat) (chunks : List (List Nat)) :
    (handleHeader ctx ch sd hb buf chunks).challenge = ch
    ∨ (handleHeader ctx ch sd hb buf chunks).result.isOk = true := by
  simp only [handleHeader]
  split
  · simp
  · rcases hp : parseObj hb with _ | header
    · simp
    · rcases h1 : lookupJ header kCode with _ | cV
      · simp [h1]
      · rcases h2 : lookupJ header kChallenge with _ | chV
        · simp [h1, h2]
        · rcases h3 : lookupJ header kNextChallenge with _ | ncV
          · simp [h1, h2, h3]
          · rcases h4 : lookupJ header kContentLength with _ | clV
            · simp [h1, h2, h3, h4]
            · simp only [h1, h2, h3, h4]
              exact readContent_challenge_or _ _ _ _ _ _ _ _ _ _

theorem recv_challenge_or (ctx : NetCtx) (ch : JValue)
    (chunks : List (List Nat)) :
    (recv ctx ch chunks).challenge = ch
    ∨ (recv ctx ch chunks).result.isOk = true := by
  rcases hf : fixedHeaderLoop [] 0 0 chunks with _ | _ | ⟨hs, ds, buf, rest⟩ <;>
    simp only [recv, hf]
  · simp
  · simp
  · rcases h2 : readUntil ds buf rest with _ | _ | ⟨buf1, rest1⟩
    · simp
    · simp
    · simp only
      rcases h3 : readUntil hs (buf1.drop ds) rest1 with _ | _ | ⟨buf2, rest2⟩
      · simp
      · simp
      · exact handleHeader_challenge_or _ _ _ _ _ _

theorem recv_challenge_of_not_ok (ctx : NetCtx) (ch : JValue)
    (chunks : List (List Nat))
    (h : (recv ctx ch chunks).result.isOk = false) :
    (recv ctx ch chunks).challenge = ch := by
  rcases recv_challenge_or ctx ch chunks with h1 | h1
  · exact h1
  · rw [h1] at h
    cases h

/-! ## The claims -/

/-- C1: with the no-op (identity) authenticator, when the frame's challenge
`c1` equals the receiver's stored pending challenge, receiving the bytes
produced by `send(code, payload, c1, c2)` returns exactly `(code, payload)`
(and installs `c2`).  Valid pairs: a registered code, safe challenge
strings, a round-trippable payload that is not the empty mapping, and a
variable header that fits the 16-bit length field. -/
theorem claim_c1_roundtrip (sha : List Nat → List Nat)
    (h32 : ∀ m, (sha m).length = 32) (code : QOSSTCodes)
    (data : Option JObject) (c1 c2 : List Nat)
    (hc1 : safeStrB c1 = true) (hc2 : safeStrB c2 = true)
    (hdata : validDataB data = true) (hne : data ≠ some [])
    (hlen : (dumpsObj (rawHeader code.toInt (dataBytes data).length c1 c2)).length
      < 65536) :
    recv ⟨sha, NoneAuthenticator⟩ (.jstr c1)
      [(send ⟨sha, NoneAuthenticator⟩ (.jstr c1) c2 code data).1]
    = ⟨.ok code data, .jstr c2⟩ := by
  rw [send_bytes_eq_mkFrame,
    recv_mkFrame sha h32 code.toInt c1 c2 data hc1 hc2 hdata hlen]
  simp only [ofInt_toInt]
  have hpay : payloadOf data = data := by
    match data with
    | none => rfl
    | some d =>
      have hd : d ≠ [] := fun hd => hne (by rw [hd])
      simp [payloadOf, hd]
  rw [hpay]

/-- C1 witness: concrete round-trip of `IDENTIFICATION_REQUEST` with payload
`{"version": "0.2"}`. -/
theorem claim_c1_roundtrip_witness :
    recv ⟨shaExample, NoneAuthenticator⟩ (.jstr [])
      [(send ⟨shaExample, NoneAuthenticator⟩ (.jstr []) [65, 98, 67, 49, 50, 51]
        .IDENTIFICATION_REQUEST
        (some [([118, 101, 114, 115, 105, 111, 110], .jstr [48, 46, 50])])).1]
    = ⟨.ok .IDENTIFICATION_REQUEST
        (some [([118, 101, 114, 115, 105, 111, 110], .jstr [48, 46, 50])]),
      .jstr [65, 98, 67, 49, 50, 51]⟩ :=
  claim_c1_roundtrip shaExample (fun _ => rfl) .IDENTIFICATION_REQUEST
    (some [([118, 101, 114, 115, 105, 111, 110], .jstr [48, 46, 50])])
    [] [65, 98, 67, 49, 50, 51] (by decide) (by decide) (by decide)
    (by decide) (by decide)

/-- C2 (amended): a zero-byte read surfaces `SOCKET_DISCONNECTION` only in
the fixed-header phase — `recv` returns `SOCKET_DISCONNECTION` exactly when
the first `while` loop hits an empty read — while a zero-byte read in the
signature, variable-header or payload loops yields `FRAME_ERROR`. -/
theorem claim_c2_disconnection_phases :
    (∀ (ctx : NetCtx) (ch : JValue) (chunks : List (List Nat)),
      (recv ctx ch chunks).result = .err .SOCKET_DISCONNECTION
        ↔ fixedHeaderLoop [] 0 0 chunks = .disconnected)
    ∧ (∀ (buffer : List Nat) (hs ds : Nat) (rest : List (List Nat)),
        buffer.length < 4 →
        fixedHeaderLoop buffer hs ds ([] :: rest) = .disconnected)
    ∧ (∀ (target : Nat) (buffer : List Nat) (rest : List (List Nat)),
        buffer.length < target →
        readUntil target buffer ([] :: rest) = .frameError)
    ∧ (∀ (target : Int) (buffer : List Nat) (rest : List (List Nat)),
        (buffer.length : Int) < target →
        readUntilInt target buffer ([] :: rest) = .frameError) := by
  refine ⟨recv_disc_iff, ?_, ?_, ?_⟩
  · intro buffer hs ds rest h
    simp [fixedHeaderLoop, h]
  · intro target buffer rest h
    simp [readUntil, h]
  · intro target buffer rest h
    simp [readUntilInt, h]

/-- C2 counterexample: a frame whose fixed header announces a 32-byte
signature, followed by a zero-byte read while the signature is still
expected; `recv` returns `FRAME_ERROR`, not `SOCKET_DISCONNECTION`. -/
theorem claim_c2_refuted :
    recv exampleCtx (.jstr []) [[0, 4, 0, 32, 1, 1, 1, 1], []]
      = ⟨.err .FRAME_ERROR, .jstr []⟩
    ∧ QOSSTErrorCodes.FRAME_ERROR ≠ .SOCKET_DISCONNECTION := by
  decide

/-- C2 witness: the amended statement at concrete inputs. -/
theorem claim_c2_witness :
    ((recv exampleCtx (.jstr []) [[]]).result = .err .SOCKET_DISCONNECTION
      ↔ fixedHeaderLoop [] 0 0 [[]] = .disconnected)
    ∧ fixedHeaderLoop [] 0 0 [[]] = .disconnected
    ∧ readUntil 5 [] [[]] = .frameError
    ∧ readUntilInt 5 [] [[]] = .frameError :=
  ⟨claim_c2_disconnection_phases.1 exampleCtx (.jstr []) [[]],
   claim_c2_disconnection_phases.2.1 [] 0 0 [] (by decide),
   claim_c2_disconnection_phases.2.2.1 5 [] [] (by decide),
   claim_c2_disconnection_phases.2.2.2 5 [] [] (by decide)⟩

/-- C3: for a frame that passes digest verification and carries a
registered code: an equal challenge is accepted, adopting the frame's
`next_challenge`; an unequal challenge is accepted anyway when the code is
`IDENTIFICATION_REQUEST`; otherwise `recv` returns
`AUTHENTICATION_FAILURE` with the stored challenge unchanged. -/
theorem claim_c3_challenge_validation (ctx : NetCtx) (ch : JValue)
    (sd : List Nat) (n : Int) (chV ncV : JValue) (cont : Option JObject)
    (hb cb : List Nat) (code : QOSSTCodes)
    (hcode : QOSSTCodes.ofInt n = some code)
    (hcheck : ctx.auth.check_digest (ctx.sha256 (hb ++ cb)) sd = true) :
    (chV = ch →
      finishFrame ctx ch sd (.jint n) chV ncV cont hb cb = ⟨.ok code cont, ncV⟩)
    ∧ (chV ≠ ch → code = .IDENTIFICATION_REQUEST →
      finishFrame ctx ch sd (.jint n) chV ncV cont hb cb = ⟨.ok code cont, ncV⟩)
    ∧ (chV ≠ ch → code ≠ .IDENTIFICATION_REQUEST →
      finishFrame ctx ch sd (.jint n) chV ncV cont hb cb
        = ⟨.err .AUTHENTICATION_FAILURE, ch⟩) := by
  simp only [finishFrame, hcode]
  rw [if_neg (by simp [hcheck])]
  refine ⟨?_, ?_, ?_⟩
  · intro h
    rw [if_neg (by simp [h])]
  · intro h1 h2
    rw [if_neg (by simp [h2])]
  · intro h1 h2
    rw [if_pos ⟨fun hc => h1 hc.symm, h2⟩]

/-- C3 witness: an accepted equal-challenge frame and a rejected
unequal-challenge frame for a non-identification code. -/
theorem claim_c3_challenge_validation_witness :
    (finishFrame exampleCtx (.jstr []) (shaExample []) (.jint 220) (.jstr [])
        (.jstr [65]) none [] [] = ⟨.ok .FRAME_ENDED none, .jstr [65]⟩)
    ∧ (finishFrame exampleCtx (.jstr [66]) (shaExample []) (.jint 220)
        (.jstr []) (.jstr [65]) none [] []
        = ⟨.err .AUTHENTICATION_FAILURE, .jstr [66]⟩) :=
  ⟨(claim_c3_challenge_validation exampleCtx (.jstr []) (shaExample [])
      220 (.jstr []) (.jstr [65]) none [] [] .FRAME_ENDED (by decide)
      (by decide)).1 rfl,
   (claim_c3_challenge_validation exampleCtx (.jstr [66]) (shaExample [])
      220 (.jstr []) (.jstr [65]) none [] [] .FRAME_ENDED (by decide)
      (by decide)).2.2 (by decide) (by decide)⟩

/-- C4: the bytes handed to `sendall` are exactly
`u16(len(header)) || u16(len(signature)) || signature || header || payload`,
where the signature is the signer applied to the SHA-256 digest of
`header || payload`, and the emitted header's `content_length` field is the
exact byte length of the serialized payload. -/
theorem claim_c4_send_layout (ctx : NetCtx) (challenge : JValue)
    (nc : List Nat) (code : QOSSTCodes) (data : Option JObject) :
    (send ctx challenge nc code data).1
      = u16be (dumpsObj (sendHeader code (dataBytes data).length challenge nc)).length
        ++ (u16be (ctx.auth.sign_digest (ctx.sha256
            (dumpsObj (sendHeader code (dataBytes data).length challenge nc)
              ++ dataBytes data))).length
        ++ (ctx.auth.sign_digest (ctx.sha256
            (dumpsObj (sendHeader code (dataBytes data).length challenge nc)
              ++ dataBytes data))
        ++ (dumpsObj (sendHeader code (dataBytes data).length challenge nc)
          ++ dataBytes data)))
    ∧ lookupJ (sendHeader code (dataBytes data).length challenge nc)
        kContentLength = some (.jint (dataBytes data).length) := by
  constructor
  · simp [send, List.append_assoc]
  · exact lookupJ_hdr_content_length _ _ _ _

/-- C5: `recv` leaves the stored challenge unchanged on every non-accepted
outcome (any error code, blocking, or an escaping exception), and on an
accepted frame the new stored challenge is exactly the frame's
`next_challenge` field. -/
theorem claim_c5_challenge_update :
    (∀ (ctx : NetCtx) (ch : JValue) (chunks : List (List Nat)),
      (recv ctx ch chunks).result.isOk = false →
      (recv ctx ch chunks).challenge = ch)
    ∧ (∀ (ctx : NetCtx) (ch : JValue) (sd : List Nat) (cV chV ncV : JValue)
        (cont : Option JObject) (hb cb : List Nat) (c : QOSSTCodes)
        (p : Option JObject) (ch' : JValue),
        finishFrame ctx ch sd cV chV ncV cont hb cb = ⟨.ok c p, ch'⟩ →
        ch' = ncV) :=
  ⟨recv_challenge_of_not_ok,
   fun ctx ch sd cV chV ncV cont hb cb c p ch' h =>
     finishFrame_ok_challenge ctx ch sd cV chV ncV cont hb cb c p ch' h⟩

/-- C5 witness: an error return (disconnection) leaves the challenge
unchanged, and a concrete accepted frame installs its `next_challenge`. -/
theorem claim_c5_challenge_update_witness :
    (recv exampleCtx (.jstr [67]) [[]]).challenge = .jstr [67]
    ∧ (JValue.jstr [65] : JValue) = .jstr [65] :=
  ⟨claim_c5_challenge_update.1 exampleCtx (.jstr [67]) [[]] (by decide),
   claim_c5_challenge_update.2 exampleCtx (.jstr []) (shaExample [])
     (.jint 220) (.jstr []) (.jstr [65]) none [] [] .FRAME_ENDED none
     (.jstr [65]) (by decide)⟩

/-- C6: a frame that is well formed, correctly signed (identity
authenticator) and carries the expected challenge, but whose code value is
not in the enumeration, makes `recv` return `UNKOWN_CODE`. -/
theorem claim_c6_unknown_code (sha : List Nat → List Nat)
    (h32 : ∀ m, (sha m).length = 32) (ci : Int)
    (hci : QOSSTCodes.ofInt ci = none) (c1 c2 : List Nat)
    (data : Option JObject) (hc1 : safeStrB c1 = true)
    (hc2 : safeStrB c2 = true) (hdata : validDataB data = true)
    (hlen : (dumpsObj (rawHeader ci (dataBytes data).length c1 c2)).length
      < 65536) :
    recv ⟨sha, NoneAuthenticator⟩ (.jstr c1) [mkFrame sha ci c1 c2 data]
      = ⟨.err .UNKOWN_CODE, .jstr c1⟩ := by
  rw [recv_mkFrame sha h32 ci c1 c2 data hc1 hc2 hdata hlen]
  simp [hci]

/-- C6 witness: the concrete scenario with code `999`. -/
theorem claim_c6_unknown_code_witness :
    recv ⟨shaExample, NoneAuthenticator⟩ (.jstr [])
      [mkFrame shaExample 999 [] [65] none]
      = ⟨.err .UNKOWN_CODE, .jstr []⟩ :=
  claim_c6_unknown_code shaExample (fun _ => rfl) 999 (by decide) [] [65]
    none (by decide) (by decide) (by decide) (by decide)

/-- C7 (amended): each level of `request` performs one send and one
receive, and on `SOCKET_DISCONNECTION` it reconnects once and recursively
re-issues the request, so the number of automatic reconnect-and-retry steps
equals the number of consecutive leading disconnections — unbounded, not
capped at one. -/
theorem claim_c7_retry_unbounded :
    ∀ (env : List RecvResult) (res : RecvResult) (n : Nat),
      request env = some (res, n) →
      res ≠ .err .SOCKET_DISCONNECTION
      ∧ n = (env.takeWhile
          fun r => decide (r = .err .SOCKET_DISCONNECTION)).length := by
  intro env
  induction env with
  | nil =>
    intro res n h
    simp [request] at h
  | cons r rest ih =>
    intro res n h
    by_cases hr : r = RecvResult.err .SOCKET_DISCONNECTION
    · rw [request, if_pos hr] at h
      rcases hreq : request rest with _ | ⟨res0, n0⟩ <;> rw [hreq] at h
      · cases h
      · simp only [Option.some.injEq, Prod.mk.injEq] at h
        obtain ⟨hres, hn⟩ := h
        obtain ⟨ih1, ih2⟩ := ih res0 n0 hreq
        subst hres
        refine ⟨ih1, ?_⟩
        rw [List.takeWhile_cons, if_pos (by simp [hr])]
        simp only [List.length_cons]
        omega
    · rw [request, if_neg hr] at h
      simp only [Option.some.injEq, Prod.mk.injEq] at h
      obtain ⟨hres, hn⟩ := h
      subst hres
      refine ⟨hr, ?_⟩
      rw [List.takeWhile_cons, if_neg (by simp [hr])]
      simp [← hn]

/-- C7 counterexample: two consecutive disconnections cause two
reconnect-and-retry steps within a single `request` call, refuting "at most
one automatic reconnect-and-retry per request call". -/
theorem claim_c7_refuted :
    request [.err .SOCKET_DISCONNECTION, .err .SOCKET_DISCONNECTION,
      .ok .FRAME_ENDED none]
      = some (.ok .FRAME_ENDED none, 2)
    ∧ ¬ (2 ≤ 1) := by
  decide

/-- C7 witness: a single disconnection followed by a reply gives one
reconnect-and-retry. -/
theorem claim_c7_retry_unbounded_witness :
    (RecvResult.ok .FRAME_ENDED none) ≠ RecvResult.err .SOCKET_DISCONNECTION
    ∧ 1 = (([.err .SOCKET_DISCONNECTION, .ok .FRAME_ENDED none]
        : List RecvResult).takeWhile
          fun r => decide (r = .err .SOCKET_DISCONNECTION)).length :=
  claim_c7_retry_unbounded
    [.err .SOCKET_DISCONNECTION, .ok .FRAME_ENDED none]
    (.ok .FRAME_ENDED none) 1 (by decide)

/-- C8: a frame whose header is well formed (all four keys present) but
whose `content_length` is the JSON string `"5"` makes `recv` raise an
uncaught `TypeError` (from `len(recv_buffer) < content_length`) instead of
returning an error code. -/
theorem claim_c8_recv_raises :
    recv exampleCtx (.jstr [])
      [u16be (dumpsObj contentLengthStrHeader).length ++ u16be 32
        ++ List.replicate 32 7 ++ dumpsObj contentLengthStrHeader]
      = ⟨.raises, .jstr []⟩ := by
  decide

/-- C9: sending the empty mapping `{}` produces byte-for-byte the same
frame as sending no payload — `content_length` is `0` and the payload
section is absent — and the peer's `recv` returns payload `None`, so the
empty mapping does not round-trip. -/
theorem claim_c9_empty_mapping (sha : List Nat → List Nat)
    (h32 : ∀ m, (sha m).length = 32) (code : QOSSTCodes) (c1 c2 : List Nat)
    (hc1 : safeStrB c1 = true) (hc2 : safeStrB c2 = true)
    (hlen : (dumpsObj (rawHeader code.toInt 0 c1 c2)).length < 65536) :
    (send ⟨sha, NoneAuthenticator⟩ (.jstr c1) c2 code (some [])).1
      = (send ⟨sha, NoneAuthenticator⟩ (.jstr c1) c2 code none).1
    ∧ lookupJ (sendHeader code (dataBytes (some [])).length (.jstr c1) c2)
        kContentLength = some (.jint 0)
    ∧ recv ⟨sha, NoneAuthenticator⟩ (.jstr c1)
        [(send ⟨sha, NoneAuthenticator⟩ (.jstr c1) c2 code (some [])).1]
      = ⟨.ok code none, .jstr c2⟩ := by
  refine ⟨rfl, lookupJ_hdr_content_length _ _ _ _, ?_⟩
  rw [send_bytes_eq_mkFrame,
    recv_mkFrame sha h32 code.toInt c1 c2 (some []) hc1 hc2 rfl hlen]
  simp [ofInt_toInt, payloadOf]

/-- C9 witness: concrete `FRAME_ENDED` with `{}`. -/
theorem claim_c9_empty_mapping_witness :
    (send ⟨shaExample, NoneAuthenticator⟩ (.jstr []) [65] .FRAME_ENDED
        (some [])).1
      = (send ⟨shaExample, NoneAuthenticator⟩ (.jstr []) [65] .FRAME_ENDED
        none).1
    ∧ lookupJ (sendHeader .FRAME_ENDED (dataBytes (some [])).length
        (.jstr []) [65]) kContentLength = some (.jint 0)
    ∧ recv ⟨shaExample, NoneAuthenticator⟩ (.jstr [])
        [(send ⟨shaExample, NoneAuthenticator⟩ (.jstr []) [65] .FRAME_ENDED
          (some [])).1]
      = ⟨.ok .FRAME_ENDED none, .jstr [65]⟩ :=
  claim_c9_empty_mapping shaExample (fun _ => rfl) .FRAME_ENDED [] [65]
    (by decide) (by decide) (by decide)

/-- C10: `close()` on a responder that was never opened raises
`AttributeError` (the `host_socket` attribute is only assigned in `open()`),
while `close()` on a never-opened initiator is a no-op; after `open()` the
responder's `close()` succeeds. -/
theorem claim_c10_close_unopened :
    serverClose initServerState = .error .attributeError
    ∧ socketClose initSocketState = initSocketState
    ∧ serverClose (serverOpen initServerState)
      = .ok ⟨initSocketState, some false⟩ :=
  ⟨rfl, rfl, rfl⟩

end QOSST
